import Mathlib

/-!
Shallow embedding of the CFshakemap cache core and request handlers
(`app/main.py`) together with proofs of the specified properties.

Modelling conventions:
* JSON/Python values are modelled by `JVal`; Python `dict`s carrying JSON
  data are association lists `List (String × JVal)`.
* Python floats (times, TTL, numeric parameters) are modelled as `ℚ`.
* A raising Python expression is modelled by `Except String α`; the string
  is the exception text that `str(e)` would render.
* The module-level mutable `_CACHE` dict is the `CacheState` record and is
  threaded explicitly through each operation.
* `time.time()` is an explicit `now : ℚ` argument; one sample is used per
  sequential call and one per atomic step of the concurrent machine.
* The global `CACHE_TTL_SEC` is `Option ℚ`; most definitions take the TTL
  as a parameter so that hypothetical configurations (e.g. 600 s) can be
  stated, and `CACHE_TTL_SEC` itself embeds the literal in the source.
-/

namespace Shakemap

/-- A JSON-style Python value, as passed around by the handlers. -/
inductive JVal where
  | null
  | bool (b : Bool)
  | num (q : ℚ)
  | str (s : String)
  | arr (elems : List JVal)
  | obj (fields : List (String × JVal))

/-- Python truthiness (`bool(v)` / use of `v` in a condition or `or`). -/
def pyTruthy : JVal → Bool
  | .null => false
  | .bool b => b
  | .num q => q != 0
  | .str s => s != ""
  | .arr elems => !elems.isEmpty
  | .obj fields => !fields.isEmpty

/-- Rendering of a numeric value inside an f-string.  A deterministic
rational rendering standing for CPython float/int `str`. -/
def ratStr (q : ℚ) : String :=
  if q.den = 1 then toString q.num else toString q.num ++ "/" ++ toString q.den

mutual

/-- Python `str(v)` as used by the f-string in `_make_event_key`.  The
metadata fields interpolated there are scalars; for nested containers we
render recursively (CPython would additionally quote inner strings). -/
def pyStr : JVal → String
  | .null => "None"
  | .bool true => "True"
  | .bool false => "False"
  | .num q => ratStr q
  | .str s => s
  | .arr elems => "[" ++ pyStrList elems ++ "]"
  | .obj fields => "\x7b" ++ pyStrObj fields ++ "\x7d"

def pyStrList : List JVal → String
  | [] => ""
  | [v] => pyStr v
  | v :: rest => pyStr v ++ ", " ++ pyStrList rest

def pyStrObj : List (String × JVal) → String
  | [] => ""
  | [(k, v)] => k ++ ": " ++ pyStr v
  | (k, v) :: rest => k ++ ": " ++ pyStr v ++ ", " ++ pyStrObj rest

end

/-- Python `d.get(k)` on a dict modelled as an association list: the value
under the first matching key, else `None`. -/
def dGet (fields : List (String × JVal)) (k : String) : JVal :=
  match fields.lookup k with
  | some v => v
  | none => JVal.null

/-- Python `v.get(k, d)` where `v` is an arbitrary value: raises `AttributeError`
unless `v` is a dict. -/
def pyGetD (v : JVal) (k : String) (d : JVal) : Except String JVal :=
  match v with
  | .obj fields =>
      match fields.lookup k with
      | some w => .ok w
      | none => .ok d
  | _ => .error "AttributeError: get"

/-- Python `body[k]` on a dict: `KeyError` when the key is absent. -/
def pyIndex (fields : List (String × JVal)) (k : String) : Except String JVal :=
  match fields.lookup k with
  | some v => .ok v
  | none => .error ("KeyError: " ++ k)

/-- Decimal-literal parsing for `float(s)` on a string: optional sign,
digits, optional fractional part (CPython additionally accepts exponents,
whitespace and special values, none of which the API clients send). -/
def decDigits : List Char → Option ℕ
  | [] => none
  | cs =>
    if cs.all Char.isDigit then
      some (cs.foldl (fun a c => 10 * a + (c.toNat - 48)) 0)
    else none

/-- Split a character list at the first dot, when there is one. -/
def splitDot : List Char → List Char × Option (List Char)
  | [] => ([], none)
  | c :: t =>
    if c = '.' then ([], some t)
    else
      let p := splitDot t
      (c :: p.1, p.2)

def strToRat (s : String) : Option ℚ :=
  let cs := s.toList
  let signed : ℚ × List Char :=
    match cs with
    | '-' :: t => (-1, t)
    | '+' :: t => (1, t)
    | _ => (1, cs)
  let p := splitDot signed.2
  match p.2 with
  | none => (decDigits p.1).map (fun n => signed.1 * n)
  | some frac =>
    match p.1, frac with
    | [], [] => none
    | ip, fp =>
      let intVal : Option ℕ := if ip = [] then some 0 else decDigits ip
      let fracVal : Option (ℕ × ℕ) :=
        if fp = [] then some (0, 0) else (decDigits fp).map (fun n => (n, fp.length))
      match intVal, fracVal with
      | some i, some fv => some (signed.1 * ((i : ℚ) + (fv.1 : ℚ) / ((10 : ℚ) ^ fv.2)))
      | _, _ => none

/-- Python `float(v)`: numbers and bools convert, strings are parsed,
everything else raises. -/
def pyFloat : JVal → Except String ℚ
  | .num q => .ok q
  | .bool b => .ok (if b then 1 else 0)
  | .str s =>
    match strToRat s with
    | some q => .ok q
    | none => .error ("ValueError: could not convert string to float: " ++ s)
  | .null => .error "TypeError: float() argument must be a string or a number, not NoneType"
  | .arr _ => .error "TypeError: float() argument must be a string or a number, not list"
  | .obj _ => .error "TypeError: float() argument must be a string or a number, not dict"

/-- The module-level `_CACHE` dict: `data`, `event_key`, `ts`. -/
structure CacheState where
  data : Option JVal
  event_key : Option String
  ts : ℚ

/-- The `_CACHE` dict at process start: `data=None, event_key=None, ts=0.0`. -/
def initCache : CacheState := ⟨none, none, 0⟩

/-- Embeds `CACHE_TTL_SEC: Optional[int] = None`: the configured TTL of the
source, fixed at process start. -/
def CACHE_TTL_SEC : Option ℚ := none

/-- Embeds `_make_event_key(meta)` on a metadata dict:
`f"{meta.get(time_utc) or meta.get(time_th)}|{lat}|{lon}|{mag}|{depth_km}"`. -/
def makeEventKey (meta : List (String × JVal)) : String :=
  let t := if pyTruthy (dGet meta "time_utc") then dGet meta "time_utc" else dGet meta "time_th"
  pyStr t ++ "|" ++ pyStr (dGet meta "lat") ++ "|" ++ pyStr (dGet meta "lon") ++ "|"
    ++ pyStr (dGet meta "mag") ++ "|" ++ pyStr (dGet meta "depth_km")

/-- Embeds `_make_event_key(meta)` when `meta` is an arbitrary value: the
`meta.get` calls raise unless `meta` is a dict. -/
def makeEventKeyE (meta : JVal) : Except String String :=
  match meta with
  | .obj fields => .ok (makeEventKey fields)
  | _ => .error "AttributeError: get"

/-- Embeds `_get_cached_ok()`: data present AND (TTL disabled OR age < TTL).
`(_CACHE["ts"] or 0)` maps a falsy (zero) timestamp to the int 0. -/
def getCachedOk (ttl : Option ℚ) (now : ℚ) (st : CacheState) : Bool :=
  match st.data with
  | none => false
  | some _ =>
    match ttl with
    | none => true
    | some t => decide (now - (if st.ts = 0 then 0 else st.ts) < t)

/-- The external collaborators imported from `logic.py`: the Event Source
and the Overlay Computer; each may raise. -/
structure Collaborators where
  fetchLatestEvent : Except String JVal
  computeOverlay : JVal → Except String JVal

/-- Embeds `_compute_and_store()`: fetch the latest event, compute the overlay,
then assign `_CACHE["data"]`, `_CACHE["event_key"]`, `_CACHE["ts"]` in that
order.  Returns the result (or the raised error) together with the cache
state left behind; a raise before the first assignment leaves the state
unchanged, and a raise by `_make_event_key` (possible only when the payload
carries a non-dict `"meta"`) leaves the partially written `st1`. -/
def computeAndStore (C : Collaborators) (now : ℚ) (st : CacheState) :
    Except String JVal × CacheState :=
  match C.fetchLatestEvent with
  | .error e => (.error e, st)
  | .ok ev =>
    match C.computeOverlay ev with
    | .error e => (.error e, st)
    | .ok data =>
      match pyGetD data "meta" (.obj []) with
      | .error e => (.error e, st)
      | .ok meta =>
        let st1 : CacheState := { st with data := some data }
        match makeEventKeyE meta with
        | .error e => (.error e, st1)
        | .ok key => (.ok data, ⟨some data, some key, now⟩)

/-- Embeds `_get_or_compute(force)`: fast-path validity check, then the
lock-guarded re-check and compute.  Sequentially the lock is a no-op; the
interleaved behaviour is the step machine `Step` below. -/
def getOrCompute (C : Collaborators) (ttl : Option ℚ) (now : ℚ) (force : Bool)
    (st : CacheState) : Except String JVal × CacheState :=
  if !force && getCachedOk ttl now st then
    (.ok (st.data.getD .null), st)
  else
    -- with _CACHE_LOCK:
    if !force && getCachedOk ttl now st then
      (.ok (st.data.getD .null), st)
    else
      computeAndStore C now st

/-- The body returned by `GET /api/cache_state` (`peek_state`). -/
structure PeekSummary where
  has_cache : Bool
  event_key : Option String
  ts : ℚ
  ttl_sec : Option ℚ

/-- Embeds `api_cache_state()` (`peek_state`): a read-only projection of the cache. -/
def peekState (ttl : Option ℚ) (st : CacheState) : PeekSummary :=
  ⟨st.data.isSome, st.event_key, st.ts, ttl⟩

/-- A `JSONResponse`: HTTP status and JSON body. -/
structure Response where
  status : ℕ
  body : JVal

/-- Embeds `JSONResponse(data)` (default status 200). -/
def okResp (d : JVal) : Response := ⟨200, d⟩

/-- Embeds `JSONResponse(\x7b"error": str(e)\x7d, status_code=500)`. -/
def errResp (e : String) : Response := ⟨500, .obj [("error", .str e)]⟩

/-- The external `simulate_event(lat, lon, depth_km, mag)` collaborator. -/
def Simulator : Type := ℚ → ℚ → ℚ → ℚ → Except String JVal

/-- The simulate-mode body of both handlers:
`float(body["lat"]) … float(body["mag"])` in source order, then
`simulate_event(...)`; the first raise aborts the rest. -/
def simBranch (S : Simulator) (body : List (String × JVal)) : Except String JVal :=
  match pyIndex body "lat" with
  | .error e => .error e
  | .ok vlat =>
  match pyFloat vlat with
  | .error e => .error e
  | .ok lat =>
  match pyIndex body "lon" with
  | .error e => .error e
  | .ok vlon =>
  match pyFloat vlon with
  | .error e => .error e
  | .ok lon =>
  match pyIndex body "depth" with
  | .error e => .error e
  | .ok vdepth =>
  match pyFloat vdepth with
  | .error e => .error e
  | .ok depth =>
  match pyIndex body "mag" with
  | .error e => .error e
  | .ok vmag =>
  match pyFloat vmag with
  | .error e => .error e
  | .ok mag => S lat lon depth mag

/-- Embeds `POST /api/simulate`: the whole body is wrapped in try/except. -/
def api_simulate (S : Simulator) (body : List (String × JVal)) (st : CacheState) :
    Response × CacheState :=
  match simBranch S body with
  | .ok d => (okResp d, st)
  | .error e => (errResp e, st)

/-- Embeds `body.get("mode") == "simulate"`. -/
def isSimulateMode (body : List (String × JVal)) : Bool :=
  match body.lookup "mode" with
  | some (.str s) => s == "simulate"
  | _ => false

/-- The handler epilogue shared by `/api/run`: a successful
`_get_or_compute` becomes a 200 payload, a raise becomes a 500 error. -/
def runResponse (r : Except String JVal × CacheState) : Response × CacheState :=
  match r with
  | (.ok d, st2) => (okResp d, st2)
  | (.error e, st2) => (errResp e, st2)

/-- Embeds `POST /api/run`: simulate branch when the body declares simulate mode,
otherwise `_get_or_compute(bool(body.get("force")))`; all raises are
converted into a 500 error response. -/
def api_run (C : Collaborators) (S : Simulator) (ttl : Option ℚ) (now : ℚ)
    (body : List (String × JVal)) (st : CacheState) : Response × CacheState :=
  if isSimulateMode body then
    match simBranch S body with
    | .ok d => (okResp d, st)
    | .error e => (errResp e, st)
  else
    runResponse (getOrCompute C ttl now (pyTruthy (dGet body "force")) st)

/-- Embeds `GET /api/run`: `_get_or_compute(force=False)` under try/except. -/
def api_run_get (C : Collaborators) (ttl : Option ℚ) (now : ℚ) (st : CacheState) :
    Response × CacheState :=
  runResponse (getOrCompute C ttl now false st)

/-! ## The concurrent machine

`_get_or_compute` run by `n` threads against the shared `_CACHE` and
`_CACHE_LOCK`.  Each thread makes one call with its own `force` flag; the
scheduler picks which thread steps next and the `time.time()` sample for
that step.  Cache reads/writes of a step are atomic (CPython executes them
under the GIL, and all writes happen with the lock held). -/

/-- Thread-local control point of one `_get_or_compute(force i)` call. -/
inductive Phase where
  | start
  | waiting
  | locked
  | done (r : Except String JVal)

/-- Shared configuration: the cache, the lock owner, each thread's control
point, and a ghost counter of Event-Source/Overlay-Computer pipeline runs. -/
structure Config (n : ℕ) where
  cache : CacheState
  lock : Option (Fin n)
  phase : Fin n → Phase
  computes : ℕ

/-- Process start: empty cache, free lock, all threads at their call site. -/
def initConfig (n : ℕ) : Config n := ⟨initCache, none, fun _ => Phase.start, 0⟩

/-- One atomic step of thread `i` at time `now`. -/
inductive Step {n : ℕ} (C : Collaborators) (ttl : Option ℚ) (force : Fin n → Bool) :
    Fin n → ℚ → Config n → Config n → Prop where
  | fastHit (i : Fin n) (now : ℚ) (c : Config n)
      (hp : c.phase i = Phase.start) (hf : force i = false)
      (hok : getCachedOk ttl now c.cache = true) :
      Step C ttl force i now c
        { c with phase := Function.update c.phase i (Phase.done (.ok (c.cache.data.getD .null))) }
  | fastMiss (i : Fin n) (now : ℚ) (c : Config n)
      (hp : c.phase i = Phase.start)
      (hmiss : force i = true ∨ getCachedOk ttl now c.cache = false) :
      Step C ttl force i now c
        { c with phase := Function.update c.phase i Phase.waiting }
  | acquire (i : Fin n) (now : ℚ) (c : Config n)
      (hp : c.phase i = Phase.waiting) (hl : c.lock = none) :
      Step C ttl force i now c
        { c with lock := some i, phase := Function.update c.phase i Phase.locked }
  | recheckHit (i : Fin n) (now : ℚ) (c : Config n)
      (hp : c.phase i = Phase.locked) (hl : c.lock = some i) (hf : force i = false)
      (hok : getCachedOk ttl now c.cache = true) :
      Step C ttl force i now c
        { c with lock := none,
                 phase := Function.update c.phase i (Phase.done (.ok (c.cache.data.getD .null))) }
  | compute (i : Fin n) (now : ℚ) (c : Config n)
      (hp : c.phase i = Phase.locked) (hl : c.lock = some i)
      (hmiss : force i = true ∨ getCachedOk ttl now c.cache = false) :
      Step C ttl force i now c
        ⟨(computeAndStore C now c.cache).2, none,
         Function.update c.phase i (Phase.done (computeAndStore C now c.cache).1),
         c.computes + 1⟩

/-- All interleavings: reflexive-transitive closure of `Step` over any
thread and any step time. -/
abbrev Steps {n : ℕ} (C : Collaborators) (ttl : Option ℚ) (force : Fin n → Bool) :
    Config n → Config n → Prop :=
  Relation.ReflTransGen (fun a b => ∃ i now, Step C ttl force i now a b)

/-- A payload whose `"meta"` entry (defaulted to `{}`) is itself a dict, as
the spec requires of Overlay Computer results. -/
def PayloadOk (data : JVal) : Prop :=
  ∃ m, pyGetD data "meta" (.obj []) = .ok (.obj m)

/-- A collaborator set whose overlay results are all well-shaped payloads. -/
def CollabOk (C : Collaborators) : Prop :=
  ∀ ev data, C.computeOverlay ev = .ok data → PayloadOk data

/-! ## Concrete values used by the witnesses -/

def demoMeta : List (String × JVal) :=
  [("time_utc", .str "2025-01-01T00:00:00Z"), ("lat", .num 13), ("lon", .num 100),
   ("mag", .num 5), ("depth_km", .num 10)]

def demoData : JVal := .obj [("meta", .obj demoMeta)]

def demoKey : String := makeEventKey demoMeta

/-- A collaborator pair that always succeeds with `demoData`. -/
def demoC : Collaborators := ⟨.ok (.obj []), fun _ => .ok demoData⟩

/-- A collaborator pair whose Event Source always raises. -/
def failC : Collaborators := ⟨.error "upstream down", fun _ => .ok demoData⟩

/-- A simulator that succeeds, echoing its inputs. -/
def demoSim : Simulator := fun lat lon depth mag =>
  .ok (.obj [("lat", .num lat), ("lon", .num lon), ("depth", .num depth), ("mag", .num mag)])

/-- A simulate-mode body with the four numeric parameters of the spec
example: `lat=13.75, lon=100.5, depth=10, mag=5.0`. -/
def simBody : List (String × JVal) :=
  [("mode", .str "simulate"), ("lat", .num (55/4)), ("lon", .num (201/2)),
   ("depth", .num 10), ("mag", .num 5)]

/-- A simulate-mode body with `mag` missing. -/
def noMagBody : List (String × JVal) :=
  [("lat", .num 1), ("lon", .num 2), ("depth", .num 3)]

/-- The cache invariant of the spec data model: `event_key` and `ts` are
populated exactly when `data` is. -/
def CacheInv (st : CacheState) : Prop :=
  (st.event_key ≠ none ∧ st.ts ≠ 0) ↔ st.data ≠ none

/-- A simulate request parameter that is missing or non-numeric. -/
def BadParam (body : List (String × JVal)) : Prop :=
  ∃ k, k ∈ (["lat", "lon", "depth", "mag"] : List String) ∧
    (body.lookup k = none ∨ ∃ v e, body.lookup k = some v ∧ pyFloat v = .error e)

/-- Invariant carried through every interleaving of non-forced calls with
a deterministic successful pipeline: either nothing has been computed (the
cache is still empty and no call has returned) or the pipeline has run
exactly once and every returned call got that one payload. -/
def Coalesced {n : ℕ} (data : JVal) (key : String) (c : Config n) : Prop :=
  (c.cache = initCache ∧ c.computes = 0 ∧ ∀ i r, c.phase i ≠ Phase.done r) ∨
  ((∃ t, c.cache = ⟨some data, some key, t⟩) ∧ c.computes = 1 ∧
    ∀ i r, c.phase i = Phase.done r → r = .ok data)

/-- A warm cache holding the demo payload. -/
def demoValidCache : CacheState := ⟨some demoData, some demoKey, 1⟩

/-- One thread at its call site in front of the warm cache. -/
def demoConfigA : Config 1 := ⟨demoValidCache, none, fun _ => Phase.start, 0⟩

/-- The configuration after that thread takes the fast path. -/
def demoConfigB : Config 1 :=
  { demoConfigA with
    phase := Function.update demoConfigA.phase 0
      (Phase.done (.ok (demoConfigA.cache.data.getD .null))) }

/-- A single-thread run from the empty cache: the thread at its call site. -/
def runConfig0 : Config 1 := initConfig 1

/-- The same run after the failed fast-path check. -/
def runConfig1 : Config 1 :=
  { runConfig0 with phase := Function.update runConfig0.phase 0 Phase.waiting }

/-- The same run after acquiring the lock. -/
def runConfig2 : Config 1 :=
  { runConfig1 with lock := some 0, phase := Function.update runConfig1.phase 0 Phase.locked }

/-- The same run after computing, storing and releasing. -/
def runConfig3 : Config 1 :=
  ⟨(computeAndStore demoC 4 runConfig2.cache).2, none,
   Function.update runConfig2.phase 0 (Phase.done (computeAndStore demoC 4 runConfig2.cache).1),
   runConfig2.computes + 1⟩

/-! ## Helper lemmas -/

theorem ts_or_zero (q : ℚ) : (if q = 0 then 0 else q) = q := by
  by_cases h : q = 0 <;> simp [h]

/-- Successful pipeline: `_compute_and_store` returns the overlay payload
and fully replaces the cache triple. -/
theorem computeAndStore_ok {C : Collaborators} {ev data : JVal} {m : List (String × JVal)}
    (hf : C.fetchLatestEvent = .ok ev) (hc : C.computeOverlay ev = .ok data)
    (hm : pyGetD data "meta" (.obj []) = .ok (.obj m)) (now : ℚ) (st : CacheState) :
    computeAndStore C now st = (.ok data, ⟨some data, some (makeEventKey m), now⟩) := by
  simp [computeAndStore, hf, hc, hm, makeEventKeyE]

/-- Failing pipeline: a raise in the Event Source or the Overlay Computer
propagates and leaves the cache untouched. -/
theorem computeAndStore_err {C : Collaborators} {e : String}
    (herr : C.fetchLatestEvent = .error e ∨
      ∃ ev, C.fetchLatestEvent = .ok ev ∧ C.computeOverlay ev = .error e)
    (now : ℚ) (st : CacheState) :
    computeAndStore C now st = (.error e, st) := by
  rcases herr with h | ⟨ev, h1, h2⟩
  · simp [computeAndStore, h]
  · simp [computeAndStore, h1, h2]

/-- A successful `body[k]` means the key is present with that value. -/
theorem pyIndex_ok {body : List (String × JVal)} {k : String} {v : JVal}
    (h : pyIndex body k = .ok v) : body.lookup k = some v := by
  rw [pyIndex] at h
  cases hl : body.lookup k <;> rw [hl] at h
  · simp at h
  · simp only [Except.ok.injEq] at h
    rw [h]

/-- A successful simulate branch parsed all four parameters: each of
`lat`, `lon`, `depth`, `mag` is present in the body and numeric. -/
theorem simBranch_ok_params {S : Simulator} {body : List (String × JVal)} {d : JVal}
    (h : simBranch S body = .ok d) :
    ∀ k ∈ (["lat", "lon", "depth", "mag"] : List String),
      ∃ v q, body.lookup k = some v ∧ pyFloat v = .ok q := by
  rw [simBranch] at h
  rcases h1 : pyIndex body "lat" with e | vlat
  · simp only [h1] at h; simp at h
  simp only [h1] at h
  rcases h2 : pyFloat vlat with e | lat
  · simp only [h2] at h; simp at h
  simp only [h2] at h
  rcases h3 : pyIndex body "lon" with e | vlon
  · simp only [h3] at h; simp at h
  simp only [h3] at h
  rcases h4 : pyFloat vlon with e | lon
  · simp only [h4] at h; simp at h
  simp only [h4] at h
  rcases h5 : pyIndex body "depth" with e | vdepth
  · simp only [h5] at h; simp at h
  simp only [h5] at h
  rcases h6 : pyFloat vdepth with e | depth
  · simp only [h6] at h; simp at h
  simp only [h6] at h
  rcases h7 : pyIndex body "mag" with e | vmag
  · simp only [h7] at h; simp at h
  simp only [h7] at h
  rcases h8 : pyFloat vmag with e | mag
  · simp only [h8] at h; simp at h
  intro k hk
  simp only [List.mem_cons, List.not_mem_nil, or_false] at hk
  rcases hk with rfl | rfl | rfl | rfl
  · exact ⟨vlat, lat, pyIndex_ok h1, h2⟩
  · exact ⟨vlon, lon, pyIndex_ok h3, h4⟩
  · exact ⟨vdepth, depth, pyIndex_ok h5, h6⟩
  · exact ⟨vmag, mag, pyIndex_ok h7, h8⟩

/-! ## Claim theorems -/

/-- Claim C1: whenever a `_get_or_compute` call reaches the computation
(it is forced, or the cache is not valid at the call time) and the Event
Source fetch or the Overlay Computer computation raises, the raised error
propagates to the caller and the cache triple `(data, event_key, ts)` is
returned exactly as it was — no field is updated — so a subsequent call
retries the full computation. -/
theorem C1_error_leaves_cache_unchanged (C : Collaborators) (ttl : Option ℚ) (now : ℚ)
    (force : Bool) (st : CacheState) (e : String)
    (herr : C.fetchLatestEvent = .error e ∨
      ∃ ev, C.fetchLatestEvent = .ok ev ∧ C.computeOverlay ev = .error e)
    (hmiss : force = true ∨ getCachedOk ttl now st = false) :
    getOrCompute C ttl now force st = (.error e, st) := by
  have hcond : (!force && getCachedOk ttl now st) = false := by
    rcases hmiss with h | h <;> simp [h]
  simp [getOrCompute, hcond, computeAndStore_err herr]

/-- Witness for C1: a failing Event Source on the empty cache propagates
its error and leaves `_CACHE` at its initial value. -/
theorem C1_witness :
    getOrCompute failC none 5 false initCache = (.error "upstream down", initCache) :=
  C1_error_leaves_cache_unchanged failC none 5 false initCache "upstream down"
    (Or.inl rfl) (Or.inr rfl)

/-- Claim C3: `_get_cached_ok` is true iff data is present AND (TTL is
disabled OR `now - ts < TTL`); with TTL 600 a result stored at `T` is valid
at `T+599` and invalid at `T+601`; with TTL disabled it is valid at every
later time. -/
theorem C3_validity_check :
    (∀ (ttl : Option ℚ) (now : ℚ) (st : CacheState),
      getCachedOk ttl now st = true ↔
        st.data.isSome = true ∧ (ttl = none ∨ ∃ t, ttl = some t ∧ now - st.ts < t)) ∧
    (∀ (T : ℚ) (d : JVal) (k : Option String),
      getCachedOk (some 600) (T + 599) ⟨some d, k, T⟩ = true ∧
      getCachedOk (some 600) (T + 601) ⟨some d, k, T⟩ = false) ∧
    (∀ (T T2 : ℚ) (d : JVal) (k : Option String), T < T2 →
      getCachedOk none T2 ⟨some d, k, T⟩ = true) := by
  refine ⟨fun ttl now st => ?_, fun T d k => ⟨?_, ?_⟩, fun T T2 d k _ => ?_⟩
  · cases hd : st.data <;> cases ttl <;> simp [getCachedOk, hd, ts_or_zero]
  · simp [getCachedOk, ts_or_zero]; norm_num
  · simp [getCachedOk, ts_or_zero]; norm_num
  · simp [getCachedOk]

/-- Witness for C3: the TTL-disabled part at a concrete state and time. -/
theorem C3_witness :
    getCachedOk none 2 ⟨some (.obj []), some "k", 1⟩ = true :=
  C3_validity_check.2.2 1 2 (.obj []) (some "k") (by norm_num)

/-- Claim C9: `_make_event_key` is the string joining, with the `|`
delimiter, `time_utc` (falling back to `time_th` when `time_utc` is
falsy), then `lat`, `lon`, `mag`, `depth_km`, in that order; it depends on
nothing but those fields, so two metadata dicts agreeing on them yield the
same key. -/
theorem C9_event_key (m m2 : List (String × JVal))
    (h1 : dGet m "time_utc" = dGet m2 "time_utc") (h2 : dGet m "time_th" = dGet m2 "time_th")
    (h3 : dGet m "lat" = dGet m2 "lat") (h4 : dGet m "lon" = dGet m2 "lon")
    (h5 : dGet m "mag" = dGet m2 "mag") (h6 : dGet m "depth_km" = dGet m2 "depth_km") :
    makeEventKey m = String.intercalate "|"
      [pyStr (if pyTruthy (dGet m "time_utc") then dGet m "time_utc" else dGet m "time_th"),
       pyStr (dGet m "lat"), pyStr (dGet m "lon"),
       pyStr (dGet m "mag"), pyStr (dGet m "depth_km")] ∧
    makeEventKey m = makeEventKey m2 := by
  constructor
  · simp [makeEventKey, String.intercalate, String.intercalate.go, String.append_assoc]
  · simp [makeEventKey, h1, h2, h3, h4, h5, h6]

/-- Witness for C9: the concrete demo metadata yields its joined key. -/
theorem C9_witness : makeEventKey demoMeta = makeEventKey demoMeta :=
  (C9_event_key demoMeta demoMeta rfl rfl rfl rfl rfl rfl).2

/-- Claim C2: the cache invariant — `event_key` and `ts` populated iff
`data` present — holds initially and is preserved by every
`_get_or_compute` call (any force flag, collaborators allowed to raise, at
a positive clock, with well-shaped overlay payloads); moreover the cache
is never partially updated: each call either leaves the triple untouched
or replaces all three fields at once.  `peek_state` is the pure projection
`peekState` and mutates nothing. -/
theorem C2_invariant_preserved :
    CacheInv initCache ∧
    ∀ (C : Collaborators) (ttl : Option ℚ) (now : ℚ) (force : Bool) (st : CacheState),
      CollabOk C → 0 < now → CacheInv st →
      CacheInv (getOrCompute C ttl now force st).2 ∧
      ((getOrCompute C ttl now force st).2 = st ∨
        ∃ d k, (getOrCompute C ttl now force st).2 = ⟨some d, some k, now⟩) := by
  constructor
  · simp [CacheInv, initCache]
  · intro C ttl now force st hC hnow hinv
    cases hfast : (!force && getCachedOk ttl now st) with
    | true =>
      have heq : getOrCompute C ttl now force st = (.ok (st.data.getD .null), st) := by
        rw [getOrCompute, if_pos hfast]
      rw [heq]
      exact ⟨hinv, Or.inl rfl⟩
    | false =>
      have hni : ¬ ((!force && getCachedOk ttl now st) = true) := by simp [hfast]
      have heq : getOrCompute C ttl now force st = computeAndStore C now st := by
        rw [getOrCompute, if_neg hni, if_neg hni]
      rw [heq]
      rcases hf : C.fetchLatestEvent with e | ev
      · rw [computeAndStore_err (Or.inl hf)]
        exact ⟨hinv, Or.inl rfl⟩
      · rcases hc : C.computeOverlay ev with e | data
        · rw [computeAndStore_err (Or.inr ⟨ev, hf, hc⟩)]
          exact ⟨hinv, Or.inl rfl⟩
        · obtain ⟨m, hm⟩ := hC ev data hc
          rw [computeAndStore_ok hf hc hm]
          refine ⟨?_, Or.inr ⟨data, makeEventKey m, rfl⟩⟩
          simp [CacheInv, hnow.ne']

/-- Witness for C2: a forced successful computation on the empty cache at
time 7 yields a state satisfying the invariant. -/
theorem C2_witness : CacheInv (getOrCompute demoC none 7 true initCache).2 := by
  refine (C2_invariant_preserved.2 demoC none 7 true initCache ?_ (by norm_num) ?_).1
  · intro ev data h
    simp only [demoC] at h
    cases h
    exact ⟨demoMeta, rfl⟩
  · simp [CacheInv, initCache]

/-- Claim C4: for every cache state, `_get_or_compute(force=True)` runs a
fresh fetch-and-compute and replaces data, event key and timestamp, so
that `peek_state` afterwards reports the new key and new timestamp. -/
theorem C4_force_recomputes (C : Collaborators) (ttl : Option ℚ) (now : ℚ) (st : CacheState)
    (ev data : JVal) (m : List (String × JVal))
    (hf : C.fetchLatestEvent = .ok ev) (hc : C.computeOverlay ev = .ok data)
    (hm : pyGetD data "meta" (.obj []) = .ok (.obj m)) :
    getOrCompute C ttl now true st = (.ok data, ⟨some data, some (makeEventKey m), now⟩) ∧
    peekState ttl (getOrCompute C ttl now true st).2 =
      ⟨true, some (makeEventKey m), now, ttl⟩ := by
  have h := computeAndStore_ok hf hc hm now st
  refine ⟨by simp [getOrCompute, h], by simp [getOrCompute, h, peekState]⟩

/-- Witness for C4: forcing on a concrete stale cache replaces all three
fields with the fresh computation. -/
theorem C4_witness :
    getOrCompute demoC none 9 true ⟨some (.str "old"), some "old-key", 1⟩ =
      (.ok demoData, ⟨some demoData, some (makeEventKey demoMeta), 9⟩) :=
  (C4_force_recomputes demoC none 9 ⟨some (.str "old"), some "old-key", 1⟩
    (.obj []) demoData demoMeta rfl rfl rfl).1

/-- Claim C7: a simulate-mode request — `POST /api/simulate`, or
`POST /api/run` with mode `"simulate"` — leaves the cache exactly as it
was (so `peek_state` before and after agree), produces a response that
does not depend on the cache at all, and when the parameters parse and the
Simulator succeeds, returns the Simulator output directly. -/
theorem C7_simulate_frame (S : Simulator) (body : List (String × JVal)) (st st2 : CacheState)
    (C : Collaborators) (ttl : Option ℚ) (now : ℚ) :
    (api_simulate S body st).2 = st ∧
    peekState ttl (api_simulate S body st).2 = peekState ttl st ∧
    (api_simulate S body st).1 = (api_simulate S body st2).1 ∧
    (isSimulateMode body = true →
      (api_run C S ttl now body st).2 = st ∧
      (api_run C S ttl now body st).1 = (api_simulate S body st).1) ∧
    (∀ d, simBranch S body = .ok d → (api_simulate S body st).1 = okResp d) := by
  have hsim : ∀ s : CacheState, (api_simulate S body s).2 = s ∧
      (api_simulate S body s).1 = (match simBranch S body with
        | .ok d => okResp d
        | .error e => errResp e) := by
    intro s
    rw [api_simulate]
    cases simBranch S body <;> exact ⟨rfl, rfl⟩
  refine ⟨(hsim st).1, ?_, ?_, ?_, ?_⟩
  · rw [(hsim st).1]
  · rw [(hsim st).2, (hsim st2).2]
  · intro hm
    have hrun : api_run C S ttl now body st = api_simulate S body st := by
      rw [api_run, if_pos hm, api_simulate]
    rw [hrun]
    exact ⟨(hsim st).1, rfl⟩
  · intro d hd
    rw [(hsim st).2, hd]

/-- Witness for C7: the spec example body (`lat=13.75, lon=100.5,
depth=10, mag=5.0`) through `POST /api/run` leaves the empty cache
untouched. -/
theorem C7_witness : (api_run demoC demoSim none 3 simBody initCache).2 = initCache :=
  ((C7_simulate_frame demoSim simBody initCache initCache demoC none 3).2.2.2.1 rfl).1

/-- Claim C8: if any of the four simulate parameters is missing or
non-numeric, the handler returns the structured body
`\x7berror: string\x7d` with status 500 and leaves the cache alone; no
raw exception escapes (the handler is total). -/
theorem C8_bad_params_give_500 (S : Simulator) (body : List (String × JVal)) (st : CacheState)
    (hbad : BadParam body) :
    ∃ e, api_simulate S body st = (⟨500, .obj [("error", .str e)]⟩, st) := by
  rcases hsb : simBranch S body with e | d
  · exact ⟨e, by simp [api_simulate, hsb, errResp]⟩
  · exfalso
    obtain ⟨k, hkmem, hbadk⟩ := hbad
    obtain ⟨v, q, hlv, hfv⟩ := simBranch_ok_params hsb k hkmem
    rcases hbadk with hnone | ⟨v2, e2, hv2, he2⟩
    · rw [hlv] at hnone
      simp at hnone
    · rw [hlv] at hv2
      simp only [Option.some.injEq] at hv2
      rw [← hv2] at he2
      rw [hfv] at he2
      simp at he2

/-- Witness for C8: a body missing `mag` gets a 500 error envelope. -/
theorem C8_witness :
    ∃ e, api_simulate demoSim noMagBody initCache =
      (⟨500, .obj [("error", .str e)]⟩, initCache) :=
  C8_bad_params_give_500 demoSim noMagBody initCache
    ⟨"mag", by simp, Or.inl rfl⟩

/-- Claim C10: the non-simulate branch of `POST /api/run` interprets
`force` by Python truthiness: the call is `_get_or_compute(bool(body.get("force")))`,
so any truthy value (the string `"false"`, a nonzero number) forces
recomputation while an absent key, `null`, `false`, `0` or `""` gives
`force=False`. -/
theorem C10_force_truthiness :
    (∀ (C : Collaborators) (S : Simulator) (ttl : Option ℚ) (now : ℚ) (st : CacheState)
       (v : JVal) (rest : List (String × JVal)),
       isSimulateMode (("force", v) :: rest) = false →
       api_run C S ttl now (("force", v) :: rest) st =
         runResponse (getOrCompute C ttl now (pyTruthy v) st)) ∧
    (∀ (C : Collaborators) (S : Simulator) (ttl : Option ℚ) (now : ℚ) (st : CacheState)
       (body : List (String × JVal)),
       isSimulateMode body = false → body.lookup "force" = none →
       api_run C S ttl now body st = runResponse (getOrCompute C ttl now false st)) ∧
    pyTruthy (.str "false") = true ∧ pyTruthy (.num 2) = true ∧ pyTruthy .null = false ∧
    pyTruthy (.bool false) = false ∧ pyTruthy (.num 0) = false ∧
    pyTruthy (.str "") = false := by
  refine ⟨?_, ?_, rfl, by simp [pyTruthy], rfl, rfl, by simp [pyTruthy], rfl⟩
  · intro C S ttl now st v rest hns
    rw [api_run, if_neg (by simp [hns])]
    have hv : dGet (("force", v) :: rest) "force" = v := by
      simp [dGet, List.lookup]
    rw [hv]
  · intro C S ttl now st body hns hnone
    rw [api_run, if_neg (by simp [hns])]
    have hv : dGet body "force" = JVal.null := by
      simp [dGet, hnone]
    rw [hv]
    rfl

/-- Witness for C10: a body carrying the string `"false"` under `force`
behaves as a forced call. -/
theorem C10_witness :
    api_run demoC demoSim none 3 [("force", .str "false")] initCache =
      runResponse (getOrCompute demoC none 3 (pyTruthy (.str "false")) initCache) :=
  C10_force_truthiness.1 demoC demoSim none 3 initCache (.str "false") [] rfl

/-- Claim C5: the double-checked pattern, as a characterization of every
possible step of a `_get_or_compute` call.  (1) A caller at its call site
whose `force` is false and whose cache is valid at the step time returns
the cached value at once: no lock change, no cache change, no pipeline
run.  (2) A caller at its call site that is forced or sees an invalid
cache proceeds to wait for the lock.  (3) Inside the lock, a non-forced
caller re-checks: a now-valid cache is returned without recomputing.
(4) The pipeline counter changes only when the stepping thread holds the
lock and the re-check failed (forced, or still invalid), and then the
cache becomes exactly `_compute_and_store`'s post-state. -/
theorem C5_double_checked {n : ℕ} (C : Collaborators) (ttl : Option ℚ) (force : Fin n → Bool)
    (i : Fin n) (now : ℚ) (c c2 : Config n) (hstep : Step C ttl force i now c c2) :
    (c.phase i = Phase.start → force i = false → getCachedOk ttl now c.cache = true →
       c2 = { c with
              phase := Function.update c.phase i (Phase.done (.ok (c.cache.data.getD .null))) }) ∧
    (c.phase i = Phase.start → (force i = true ∨ getCachedOk ttl now c.cache = false) →
       c2 = { c with phase := Function.update c.phase i Phase.waiting }) ∧
    (c.phase i = Phase.locked → force i = false → getCachedOk ttl now c.cache = true →
       c2 = { c with
              lock := none,
              phase := Function.update c.phase i (Phase.done (.ok (c.cache.data.getD .null))) }) ∧
    (c2.computes ≠ c.computes →
       c.lock = some i ∧ c.phase i = Phase.locked ∧
       (force i = true ∨ getCachedOk ttl now c.cache = false) ∧
       c2.cache = (computeAndStore C now c.cache).2) := by
  cases hstep with
  | fastHit hp hf hok =>
    refine ⟨fun _ _ _ => rfl, ?_, ?_, ?_⟩
    · intro _ hm
      rcases hm with hm | hm
      · rw [hf] at hm; exact Bool.noConfusion hm
      · rw [hok] at hm; exact Bool.noConfusion hm
    · intro hpl
      rw [hp] at hpl; exact Phase.noConfusion hpl
    · intro hne
      exact absurd rfl hne
  | fastMiss hp hmiss =>
    refine ⟨?_, fun _ _ => rfl, ?_, ?_⟩
    · intro _ hf hok
      rcases hmiss with hm | hm
      · rw [hf] at hm; exact Bool.noConfusion hm
      · rw [hok] at hm; exact Bool.noConfusion hm
    · intro hpl
      rw [hp] at hpl; exact Phase.noConfusion hpl
    · intro hne
      exact absurd rfl hne
  | acquire hp hl =>
    refine ⟨?_, ?_, ?_, ?_⟩
    · intro hps
      rw [hp] at hps; exact Phase.noConfusion hps
    · intro hps
      rw [hp] at hps; exact Phase.noConfusion hps
    · intro hpl
      rw [hp] at hpl; exact Phase.noConfusion hpl
    · intro hne
      exact absurd rfl hne
  | recheckHit hp hl hf hok =>
    refine ⟨?_, ?_, fun _ _ _ => rfl, ?_⟩
    · intro hps
      rw [hp] at hps; exact Phase.noConfusion hps
    · intro hps
      rw [hp] at hps; exact Phase.noConfusion hps
    · intro hne
      exact absurd rfl hne
  | compute hp hl hmiss =>
    refine ⟨?_, ?_, ?_, ?_⟩
    · intro hps
      rw [hp] at hps; exact Phase.noConfusion hps
    · intro hps
      rw [hp] at hps; exact Phase.noConfusion hps
    · intro _ hf hok
      rcases hmiss with hm | hm
      · rw [hf] at hm; exact Bool.noConfusion hm
      · rw [hok] at hm; exact Bool.noConfusion hm
    · intro _
      exact ⟨hl, hp, hmiss, rfl⟩

/-- The fast-path step over the warm demo cache. -/
theorem demoFastStep : Step demoC none (fun _ => false) 0 2 demoConfigA demoConfigB :=
  Step.fastHit 0 2 demoConfigA rfl rfl rfl

/-- Witness for C5: the characterization applied to the concrete fast-path
step: the thread returns the cached payload and nothing else changes. -/
theorem C5_witness :
    demoConfigB = { demoConfigA with
      phase := Function.update demoConfigA.phase 0
        (Phase.done (.ok (demoConfigA.cache.data.getD .null))) } :=
  (C5_double_checked demoC none (fun _ => false) 0 2 demoConfigA demoConfigB demoFastStep).1
    rfl rfl rfl

/-- Case analysis for a phase-table update observed at `j`. -/
theorem update_done_cases {n : ℕ} {phase : Fin n → Phase} {i j : Fin n} {p : Phase}
    {r : Except String JVal}
    (hj : Function.update phase i p j = Phase.done r) :
    p = Phase.done r ∨ phase j = Phase.done r := by
  by_cases hji : j = i
  · subst hji
    rw [Function.update_same] at hj
    exact Or.inl hj
  · rw [Function.update_noteq hji] at hj
    exact Or.inr hj

/-- One `Coalesced`-preserving step: under the source TTL configuration
(`None`), all-`force=False` callers, and a deterministic successful
pipeline, every step of the machine preserves the coalescing invariant. -/
theorem coalesced_step {n : ℕ} {C : Collaborators} {data : JVal} {key : String}
    (hcs : ∀ (now : ℚ) (st : CacheState),
      computeAndStore C now st = (.ok data, ⟨some data, some key, now⟩))
    {force : Fin n → Bool} (hforce : ∀ i, force i = false)
    {i : Fin n} {now : ℚ} {c c2 : Config n}
    (hstep : Step C none force i now c c2) (hinv : Coalesced data key c) :
    Coalesced data key c2 := by
  cases hstep with
  | fastHit hp hf hok =>
    rcases hinv with ⟨hc, hn0, hd⟩ | ⟨⟨t, hc⟩, hn1, hd⟩
    · rw [hc] at hok
      simp [getCachedOk, initCache] at hok
    · refine Or.inr ⟨⟨t, hc⟩, hn1, fun j r hj => ?_⟩
      rcases update_done_cases hj with hpj | hpj
      · injection hpj with hr
        rw [← hr, hc]
        rfl
      · exact hd j r hpj
  | fastMiss hp hmiss =>
    rcases hinv with ⟨hc, hn0, hd⟩ | ⟨⟨t, hc⟩, hn1, hd⟩
    · refine Or.inl ⟨hc, hn0, fun j r hj => ?_⟩
      rcases update_done_cases hj with hpj | hpj
      · exact Phase.noConfusion hpj
      · exact hd j r hpj
    · refine Or.inr ⟨⟨t, hc⟩, hn1, fun j r hj => ?_⟩
      rcases update_done_cases hj with hpj | hpj
      · exact Phase.noConfusion hpj
      · exact hd j r hpj
  | acquire hp hl =>
    rcases hinv with ⟨hc, hn0, hd⟩ | ⟨⟨t, hc⟩, hn1, hd⟩
    · refine Or.inl ⟨hc, hn0, fun j r hj => ?_⟩
      rcases update_done_cases hj with hpj | hpj
      · exact Phase.noConfusion hpj
      · exact hd j r hpj
    · refine Or.inr ⟨⟨t, hc⟩, hn1, fun j r hj => ?_⟩
      rcases update_done_cases hj with hpj | hpj
      · exact Phase.noConfusion hpj
      · exact hd j r hpj
  | recheckHit hp hl hf hok =>
    rcases hinv with ⟨hc, hn0, hd⟩ | ⟨⟨t, hc⟩, hn1, hd⟩
    · rw [hc] at hok
      simp [getCachedOk, initCache] at hok
    · refine Or.inr ⟨⟨t, hc⟩, hn1, fun j r hj => ?_⟩
      rcases update_done_cases hj with hpj | hpj
      · injection hpj with hr
        rw [← hr, hc]
        rfl
      · exact hd j r hpj
  | compute hp hl hmiss =>
    rcases hinv with ⟨hc, hn0, hd⟩ | ⟨⟨t, hc⟩, hn1, hd⟩
    · refine Or.inr ⟨⟨now, ?_⟩, ?_, fun j r hj => ?_⟩
      · show (computeAndStore C now c.cache).2 = _
        rw [hcs now c.cache]
      · show c.computes + 1 = 1
        rw [hn0]
      · rcases update_done_cases hj with hpj | hpj
        · injection hpj with hr
          rw [← hr, hcs now c.cache]
        · exact absurd hpj (hd j r)
    · rcases hmiss with hm | hm
      · rw [hforce i] at hm
        exact Bool.noConfusion hm
      · rw [hc] at hm
        simp [getCachedOk] at hm

/-- Every configuration reachable from process start is `Coalesced`. -/
theorem coalesced_reach {n : ℕ} {C : Collaborators} {data : JVal} {key : String}
    (hcs : ∀ (now : ℚ) (st : CacheState),
      computeAndStore C now st = (.ok data, ⟨some data, some key, now⟩))
    {force : Fin n → Bool} (hforce : ∀ i, force i = false)
    {c : Config n} (h : Steps C none force (initConfig n) c) :
    Coalesced data key c := by
  induction h with
  | refl =>
    refine Or.inl ⟨rfl, rfl, ?_⟩
    intro i r hi
    exact Phase.noConfusion hi
  | tail hab hbc ih =>
    obtain ⟨i, now, hstep⟩ := hbc
    exact coalesced_step hcs hforce hstep ih

/-- Claim C6: for any number `n ≥ 1` of concurrent `_get_or_compute(False)`
calls started on the empty cache, under the source configuration
(`CACHE_TTL_SEC = None`) and a deterministic successful pipeline, every
interleaving in which all calls have returned ran the Event
Source/Overlay Computer pipeline exactly once, and every call received
that one payload. -/
theorem C6_single_flight {n : ℕ} (hn : 0 < n) (C : Collaborators) (ev data : JVal)
    (m : List (String × JVal))
    (hf : C.fetchLatestEvent = .ok ev) (hc : C.computeOverlay ev = .ok data)
    (hm : pyGetD data "meta" (.obj []) = .ok (.obj m))
    (c : Config n) (hreach : Steps C CACHE_TTL_SEC (fun _ => false) (initConfig n) c)
    (hdone : ∀ i : Fin n, ∃ r, c.phase i = Phase.done r) :
    c.computes = 1 ∧ ∀ i r, c.phase i = Phase.done r → r = Except.ok data := by
  have hcs : ∀ (now : ℚ) (st : CacheState),
      computeAndStore C now st = (.ok data, ⟨some data, some (makeEventKey m), now⟩) :=
    fun now st => computeAndStore_ok hf hc hm now st
  have hco := coalesced_reach hcs (fun _ => rfl) hreach
  rcases hco with ⟨-, -, hd⟩ | ⟨-, hn1, hd⟩
  · obtain ⟨r, hr⟩ := hdone ⟨0, hn⟩
    exact absurd hr (hd ⟨0, hn⟩ r)
  · exact ⟨hn1, hd⟩

/-- The complete one-thread run from the empty cache: fast-path miss, lock
acquisition, compute-and-store. -/
theorem runSteps : Steps demoC CACHE_TTL_SEC (fun _ => false) (initConfig 1) runConfig3 := by
  have s1 : Step demoC CACHE_TTL_SEC (fun _ => false) 0 4 runConfig0 runConfig1 :=
    Step.fastMiss 0 4 runConfig0 rfl (Or.inr rfl)
  have s2 : Step demoC CACHE_TTL_SEC (fun _ => false) 0 4 runConfig1 runConfig2 :=
    Step.acquire 0 4 runConfig1 rfl rfl
  have s3 : Step demoC CACHE_TTL_SEC (fun _ => false) 0 4 runConfig2 runConfig3 :=
    Step.compute 0 4 runConfig2 rfl rfl (Or.inr rfl)
  exact Relation.ReflTransGen.tail
    (Relation.ReflTransGen.tail
      (Relation.ReflTransGen.tail Relation.ReflTransGen.refl ⟨0, 4, s1⟩)
      ⟨0, 4, s2⟩)
    ⟨0, 4, s3⟩

/-- In the final configuration of that run every thread has returned. -/
theorem runDone : ∀ i : Fin 1, ∃ r, runConfig3.phase i = Phase.done r := by
  intro i
  have hi : i = 0 := Subsingleton.elim i 0
  subst hi
  exact ⟨(computeAndStore demoC 4 runConfig2.cache).1, rfl⟩

/-- Witness for C6: the concrete all-done run computed exactly once. -/
theorem C6_witness : runConfig3.computes = 1 :=
  (C6_single_flight (by decide) demoC (.obj []) demoData demoMeta rfl rfl rfl
    runConfig3 runSteps runDone).1

end Shakemap
